import Mathlib

/-!
Shallow embedding of `src/decomposition/pretrain/decompositions.py`
(repository ZhaoYibo61/Object-Tracking).

The file defines the data the script manipulates (weight tensors, layers),
the external library routines it calls (tensorly's `parafac` and
`partial_tucker`, the VBMF package's `EVBMF`, torch's `svd`) as an oracle
record, and the five functions of the source file, line by line.

Modelling choices, each noted where it is used:
* numeric values are rationals; the `np.float32` casts of the source are
  modelled as the identity (floating-point rounding is out of scope for the
  structural claims below);
* a numpy/torch tensor is a shape together with a total entry function;
  indices outside the shape are never read by the embedded code;
* the numpy global random state read by `parafac(..., init='random')` is an
  explicit `RngState` argument; routines initialised with `init='svd'` are
  deterministic functions of their tensor arguments;
* a Python exception is `Except.error`: an oracle may fail, and reading
  `.data` on a bias that is `None` fails with an `AttributeError`;
* each embedded function returns, next to the built `nn.Sequential`
  (a list of layers), the state of its input layer at the moment the call
  returns; no statement of the source assigns to the input layer, so the
  embeddings return it unchanged;
* `print` calls of the source write to stdout only and are dropped.
-/

/-- A rational matrix with explicit shape; `entry` is total, the embedded
code never reads indices outside `rows × cols`. -/
structure Mat where
  rows : Nat
  cols : Nat
  entry : Nat → Nat → ℚ
deriving Inhabited

/-- A rational vector with explicit length. -/
structure Vec where
  len : Nat
  entry : Nat → ℚ
deriving Inhabited

/-- A rational 4-way tensor, shaped like a torch `Conv2d` weight:
`(out_channels, in_channels, kernel_h, kernel_w)`. -/
structure Tensor4 where
  s0 : Nat
  s1 : Nat
  s2 : Nat
  s3 : Nat
  entry : Nat → Nat → Nat → Nat → ℚ
deriving Inhabited

/-- `numpy.transpose(1, 0)` / torch `.t()` of a matrix. -/
def Mat.transpose (A : Mat) : Mat :=
  { rows := A.cols, cols := A.rows, entry := fun i j => A.entry j i }

/-- Matrix product (`torch.mm`); the summation length is the left factor's
column count, as in the dense product of the libraries. -/
def Mat.mul (A B : Mat) : Mat :=
  { rows := A.rows, cols := B.cols,
    entry := fun i j => ∑ l ∈ Finset.range A.cols, A.entry i l * B.entry l j }

/-- Matrix–vector product: how a linear layer's weight acts on an input. -/
def Mat.mulVec (A : Mat) (x : Nat → ℚ) : Nat → ℚ :=
  fun i => ∑ j ∈ Finset.range A.cols, A.entry i j * x j

/-- Python column slicing `A[:, :r]`: keeps `min r A.cols` columns. -/
def Mat.takeCols (A : Mat) (r : Nat) : Mat :=
  { rows := A.rows, cols := min r A.cols, entry := A.entry }

/-- Python slicing `s[:r]` on a 1-D tensor. -/
def Vec.take (v : Vec) (r : Nat) : Vec :=
  { len := min r v.len, entry := v.entry }

/-- `torch.diag` of a 1-D tensor: the square diagonal matrix it spans. -/
def torch_diag (s : Vec) : Mat :=
  { rows := s.len, cols := s.len, entry := fun i j => if i = j then s.entry i else 0 }

/-- `tensorly.base.unfold` of a 4-way tensor at mode 0 or 1: the mode's
fibres become rows, the remaining modes are flattened row-major in their
original order. -/
def Tensor4.unfold (X : Tensor4) (mode : Nat) : Mat :=
  if mode = 0 then
    { rows := X.s0, cols := X.s1 * X.s2 * X.s3,
      entry := fun i j => X.entry i (j / (X.s2 * X.s3)) (j / X.s3 % X.s2) (j % X.s3) }
  else
    { rows := X.s1, cols := X.s0 * X.s2 * X.s3,
      entry := fun i j => X.entry (j / (X.s2 * X.s3)) i (j / X.s3 % X.s2) (j % X.s3) }

/-- `tensorly.base.unfold` of a 2-D array: mode 0 is the array itself, mode 1
its transpose. -/
def Mat.unfold (A : Mat) (mode : Nat) : Mat :=
  if mode = 0 then A else A.transpose

/-- The maximum of a 4-way tensor's shape tuple (`max(X.shape)`). -/
def Tensor4.maxShape (X : Tensor4) : Nat :=
  max (max X.s0 X.s1) (max X.s2 X.s3)

/-- A Python exception escaping one of the embedded functions. -/
inductive Err where
  /-- `AttributeError`: reading `.data` on a bias that is `None`. -/
  | attributeError : Err
  /-- A failure raised inside a library routine (non-convergence, shape
  mismatch, …), tagged by an opaque code. -/
  | lib : Nat → Err
deriving DecidableEq

/-- The four factor matrices `parafac` returns for a 4-way tensor, in the
order the source unpacks them: `last, first, vertical, horizontal`. -/
structure CpFactors where
  last : Mat
  first : Mat
  vertical : Mat
  horizontal : Mat

/-- The part of `VBMF.EVBMF`'s 4-tuple `(U, S, V, post)` the source touches;
`S` is the diagonal matrix of estimated singular values (`post` is dropped,
the source discards it). -/
structure EvbmfOut where
  U : Mat
  S : Mat
  V : Mat

/-- The result triple of torch's `X.svd()`. -/
structure SvdOut where
  U : Mat
  S : Vec
  V : Mat

/-- The numpy global random state as the embedded code sees it. -/
abbrev RngState := Nat

/-- The external library routines the source calls, as oracles. A routine
initialised with `init='svd'` is a deterministic function of its tensor
arguments; `parafac` with `init='random'` also reads the global random
state. Each may fail (`Except.error`). -/
structure Libs where
  /-- `parafac(X, rank=rank, init='svd')`. -/
  parafac_svd : Tensor4 → Nat → Except Err CpFactors
  /-- `parafac(X, rank=rank, init='random')`: the initialisation draws from
  the global numpy random state. -/
  parafac_random : Tensor4 → Nat → RngState → Except Err CpFactors
  /-- `partial_tucker(W, modes, ranks, init='svd')`, returning
  `core, [last, first]`. -/
  partial_tucker : Tensor4 → List Nat → List Nat → Except Err (Tensor4 × Mat × Mat)
  /-- `VBMF.EVBMF(M)`. -/
  evbmf : Mat → Except Err EvbmfOut
  /-- torch `M.svd()`. -/
  svd : Mat → Except Err SvdOut

/-- The input to the convolutional transformations: a torch `nn.Conv2d` as
the source reads it (`weight.data`, `bias`, and the constructor
hyperparameters it copies). -/
structure Conv2dLayer where
  weight : Tensor4
  bias : Option Vec
  stride : Nat × Nat
  padding : Nat × Nat
  dilation : Nat × Nat
  kernel_size : Nat × Nat

/-- The input to `svd_decomposition_dense_layer`: a torch `nn.Linear` with
weight of shape `(out_features, in_features)`. -/
structure DenseLayer where
  weight : Mat
  bias : Option Vec

/-- A freshly constructed `torch.nn.Conv2d`, with the hyperparameters of the
constructor call and the mutable `weight`/`bias` data. -/
structure Conv2d where
  in_channels : Nat
  out_channels : Nat
  kernel_size : Nat × Nat
  stride : Nat × Nat
  padding : Nat × Nat
  dilation : Nat × Nat
  groups : Nat
  has_bias : Bool
  weight : Tensor4
  bias : Option Vec
deriving Inhabited

/-- A freshly constructed `torch.nn.Linear`. -/
structure Linear where
  in_features : Nat
  out_features : Nat
  has_bias : Bool
  weight : Mat
  bias : Option Vec
deriving Inhabited

/-- The `torch.nn.Conv2d(...)` constructor. Torch draws the initial weight
and bias from its global generator; the source overwrites every weight, and
every bias it keeps, before the layer is returned, so the initial data is
modelled as zeros. -/
def Conv2d.make (inC outC : Nat) (k s p d : Nat × Nat) (g : Nat) (b : Bool) : Conv2d :=
  { in_channels := inC, out_channels := outC, kernel_size := k, stride := s,
    padding := p, dilation := d, groups := g, has_bias := b,
    weight := ⟨outC, inC / g, k.1, k.2, fun _ _ _ _ => 0⟩,
    bias := if b then some ⟨outC, fun _ => 0⟩ else none }

/-- The `torch.nn.Linear(in_features, out_features, bias)` constructor; the
random initial data is modelled as zeros for the same reason as in
`Conv2d.make`. -/
def Linear.make (inF outF : Nat) (b : Bool) : Linear :=
  { in_features := inF, out_features := outF, has_bias := b,
    weight := ⟨outF, inF, fun _ _ => 0⟩,
    bias := if b then some ⟨outF, fun _ => 0⟩ else none }

/-- Reading `layer.bias.data`: an `AttributeError` when the bias is `None`. -/
def biasData : Option Vec → Except Err Vec
  | some v => .ok v
  | none => .error .attributeError

/-- Binding a successful step of a Python computation applies the rest of
the function to its value. -/
theorem okBind {α β : Type} (a : α) (f : α → Except Err β) :
    (Except.ok a : Except Err α) >>= f = f a := rfl

/-- The `parafac` call of `cp_decomposition_conv_layer` (source lines
15–21): SVD initialisation for small tensors, random initialisation —
reading the global random state — once the largest dimension reaches 256. -/
def cp_parafac_call (L : Libs) (rng : RngState) (X : Tensor4) (rank : Nat) :
    Except Err CpFactors :=
  if 256 ≤ X.maxShape then L.parafac_random X rank rng else L.parafac_svd X rank

/-- `cp_decomposition_conv_layer(layer, rank)` (source lines 8–80). -/
def cp_decomposition_conv_layer (L : Libs) (rng : RngState) (layer : Conv2dLayer)
    (rank : Nat) : Except Err (List Conv2d × Conv2dLayer) := do
  let X := layer.weight
  let fac ← cp_parafac_call L rng X rank
  let last := fac.last
  let first := fac.first
  let vertical := fac.vertical
  let horizontal := fac.horizontal
  let pointwise_s_to_r_layer :=
    Conv2d.make first.rows first.cols (1, 1) layer.stride (0, 0) layer.dilation 1 false
  let depthwise_vertical_layer :=
    Conv2d.make vertical.cols vertical.cols (vertical.rows, 1) layer.stride
      (layer.padding.1, 0) layer.dilation vertical.cols false
  let depthwise_horizontal_layer :=
    Conv2d.make horizontal.cols horizontal.cols (1, horizontal.rows) layer.stride
      (0, layer.padding.1) layer.dilation horizontal.cols false
  let pointwise_r_to_t_layer :=
    Conv2d.make last.cols last.rows (1, 1) layer.stride (0, 0) layer.dilation 1 true
  let b ← biasData layer.bias
  let pointwise_r_to_t_layer := { pointwise_r_to_t_layer with bias := some b }
  -- the numpy transpose/expand_dims remapping of the factors into 4-way weights
  let depthwise_vertical_layer := { depthwise_vertical_layer with
    weight := ⟨vertical.cols, 1, vertical.rows, 1, fun o _ h _ => vertical.entry h o⟩ }
  let depthwise_horizontal_layer := { depthwise_horizontal_layer with
    weight := ⟨horizontal.cols, 1, 1, horizontal.rows, fun o _ _ w => horizontal.entry w o⟩ }
  let pointwise_s_to_r_layer := { pointwise_s_to_r_layer with
    weight := ⟨first.cols, first.rows, 1, 1, fun o i _ _ => first.entry i o⟩ }
  let pointwise_r_to_t_layer := { pointwise_r_to_t_layer with
    weight := ⟨last.rows, last.cols, 1, 1, fun o i _ _ => last.entry o i⟩ }
  let new_layers := [pointwise_s_to_r_layer, depthwise_vertical_layer,
    depthwise_horizontal_layer, pointwise_r_to_t_layer]
  pure (new_layers, layer)

/-- `estimate_ranks_tucker(layer)` (source lines 82–94). -/
def estimate_ranks_tucker (L : Libs) (layer : Conv2dLayer) : Except Err (List Nat) := do
  let weights := layer.weight
  let unfold_0 := weights.unfold 0
  let unfold_1 := weights.unfold 1
  let r0 ← L.evbmf unfold_0
  let r1 ← L.evbmf unfold_1
  let diag_0 := r0.S
  let diag_1 := r1.S
  pure [diag_0.rows, diag_1.cols]

/-- `tucker_decomposition_conv_layer(layer)` (source lines 96–149). -/
def tucker_decomposition_conv_layer (L : Libs) (_rng : RngState) (layer : Conv2dLayer) :
    Except Err (List Conv2d × Conv2dLayer) := do
  let ranks ← estimate_ranks_tucker L layer
  let (core, last, first) ← L.partial_tucker layer.weight [0, 1] ranks
  let first_layer :=
    Conv2d.make first.rows first.cols (1, 1) (1, 1) (0, 0) layer.dilation 1 false
  let core_layer :=
    Conv2d.make core.s1 core.s0 layer.kernel_size layer.stride layer.padding
      layer.dilation 1 false
  let last_layer :=
    Conv2d.make last.cols last.rows (1, 1) (1, 1) (0, 0) layer.dilation 1 true
  let b ← biasData layer.bias
  let last_layer := { last_layer with bias := some b }
  let first_t := first.transpose
  let first_layer := { first_layer with
    weight := ⟨first_t.rows, first_t.cols, 1, 1, fun o i _ _ => first_t.entry o i⟩ }
  let last_layer := { last_layer with
    weight := ⟨last.rows, last.cols, 1, 1, fun o i _ _ => last.entry o i⟩ }
  let core_layer := { core_layer with weight := core }
  let new_layers := [first_layer, core_layer, last_layer]
  pure (new_layers, layer)

/-- `estimate_ranks_svd(layer)` (source lines 151–165): the unfolding code is
commented out in the source; `EVBMF` runs directly on the 2-D weight. -/
def estimate_ranks_svd (L : Libs) (layer : DenseLayer) : Except Err Nat := do
  let weights := layer.weight
  let r ← L.evbmf weights
  let diag := r.S
  pure diag.rows

/-- `svd_decomposition_dense_layer(layer)` (source lines 167–201). Note the
source assigns `weight.data` tensors whose shapes disagree with the declared
`in_features`/`out_features` of the fresh layers; the assignment replaces the
data wholesale, so the layer's effective shape is the assigned tensor's. -/
def svd_decomposition_dense_layer (L : Libs) (_rng : RngState) (layer : DenseLayer) :
    Except Err (List Linear × DenseLayer) := do
  let rank ← estimate_ranks_svd L layer
  let X := layer.weight
  let res ← L.svd X
  let U := res.U
  let S := res.S
  let V := res.V
  let Uk := U.takeCols rank
  let Sk := S.take rank
  let Vk := V.takeCols rank
  let V_layer := Linear.make rank X.cols false
  let U_layer := Linear.make X.rows rank true
  let V_layer := { V_layer with weight := Vk.transpose }
  let U_layer := { U_layer with weight := Uk.mul (torch_diag Sk) }
  let b ← biasData layer.bias
  let U_layer := { U_layer with bias := some b }
  let new_layers := [V_layer, U_layer]
  pure (new_layers, layer)

/-- The forward map of a torch `nn.Linear` whose weight data was replaced:
`y = W x + b`, with the shapes taken from the stored weight tensor. -/
def Linear.forward (l : Linear) (x : Nat → ℚ) : Nat → ℚ :=
  fun i => l.weight.mulVec x i + (match l.bias with | some b => b.entry i | none => 0)

/-- The forward map of an `nn.Sequential` of linear layers. -/
def seqForward : List Linear → (Nat → ℚ) → (Nat → ℚ)
  | [], x => x
  | l :: ls, x => seqForward ls (l.forward x)

/-! ## Claim-side descriptions of the rank-estimation helpers (claim C4) -/

/-- The rank-estimation procedure claim C4 describes, read off the spec's
words for the convolutional helper: unfold the weight along modes 0 and 1,
apply EVBMF to each unfolding, and return the dimensions of the two diagonal
matrices as the estimated ranks. -/
def estimate_ranks_tucker_claimed (L : Libs) (layer : Conv2dLayer) :
    Except Err (List Nat) := do
  let r0 ← L.evbmf (layer.weight.unfold 0)
  let r1 ← L.evbmf (layer.weight.unfold 1)
  pure [r0.S.rows, r1.S.cols]

/-- The same claimed procedure applied to a dense layer's 2-D weight: both
unfoldings are formed and EVBMF runs on each of them. The source's
`estimate_ranks_svd` is compared against this description. -/
def estimate_ranks_svd_claimed (L : Libs) (layer : DenseLayer) :
    Except Err (List Nat) := do
  let r0 ← L.evbmf (layer.weight.unfold 0)
  let r1 ← L.evbmf (layer.weight.unfold 1)
  pure [r0.S.rows, r1.S.cols]

/-- The amended description of `estimate_ranks_svd`: EVBMF runs once,
directly on the 2-D weight matrix with no unfolding, and the single
estimated rank is the diagonal matrix's row count. -/
def estimate_ranks_svd_amended (L : Libs) (layer : DenseLayer) : Except Err Nat := do
  let r ← L.evbmf layer.weight
  pure r.S.rows

/-- A 2×2 diagonal EVBMF result used by the concrete oracles below. -/
def evDiag2 : EvbmfOut :=
  ⟨⟨2, 2, fun _ _ => 0⟩, ⟨2, 2, fun i j => if i = j then 1 else 0⟩, ⟨2, 2, fun _ _ => 0⟩⟩

/-- Concrete oracles whose EVBMF fails on any matrix with three rows and
returns a 2×2 diagonal otherwise; the routines the compared helpers never
reach are left failing. -/
def rxLibs : Libs :=
  { parafac_svd := fun _ _ => .error (.lib 0)
    parafac_random := fun _ _ _ => .error (.lib 0)
    partial_tucker := fun _ _ _ => .error (.lib 0)
    evbmf := fun M => if M.rows = 3 then .error (.lib 7) else .ok evDiag2
    svd := fun _ => .error (.lib 0) }

/-- A concrete 2×3 dense layer: its mode-1 unfolding has three rows, the
matrix itself two. -/
def rxDense : DenseLayer := ⟨⟨2, 3, fun _ _ => 0⟩, some ⟨2, fun _ => 0⟩⟩

/-- C4 counterexample: on a 2×3 dense layer with EVBMF failing exactly on
3-row inputs, `estimate_ranks_svd` succeeds — so it never applies EVBMF to
the mode-1 unfolding — while the procedure the claim describes fails on that
unfolding; the helper also returns a single rank, not one per unfolding. -/
theorem estimate_ranks_svd_skips_unfolding :
    estimate_ranks_svd rxLibs rxDense = .ok 2 ∧
    estimate_ranks_svd_claimed rxLibs rxDense = .error (.lib 7) :=
  ⟨rfl, rfl⟩

/-- C4 (amended): `estimate_ranks_tucker` estimates ranks exactly as the
claim says — EVBMF on each of the two unfoldings, returning
`[diag_0.shape[0], diag_1.shape[1]]` — while `estimate_ranks_svd` instead
applies EVBMF once, directly to the 2-D weight matrix without unfolding, and
returns the single dimension `diag.shape[0]`. -/
theorem estimate_ranks_refined (L : Libs) (clayer : Conv2dLayer) (dlayer : DenseLayer) :
    estimate_ranks_tucker L clayer = estimate_ranks_tucker_claimed L clayer ∧
    estimate_ranks_svd L dlayer = estimate_ranks_svd_amended L dlayer :=
  ⟨rfl, rfl⟩

/-! ## The truncated-SVD rebuild of a dense layer (claim C1) -/

/-- Composing matrix–vector products: the product matrix acts as the
composition of its factors' actions (no shape hypotheses are needed, the
summation lengths are read off the factors). -/
theorem Mat.mulVec_mul (A B : Mat) (x : Nat → ℚ) (i : Nat) :
    (A.mul B).mulVec x i = A.mulVec (B.mulVec x) i := by
  simp only [Mat.mul, Mat.mulVec, Finset.sum_mul, Finset.mul_sum]
  rw [Finset.sum_comm]
  exact Finset.sum_congr rfl fun l _ => Finset.sum_congr rfl fun j _ => mul_assoc _ _ _

/-- The forward map of the two-layer Sequential the dense rebuild returns:
whatever weights `W1`, `W2` replace the fresh layers' data, the composition
applies `W2 · W1` and adds the final bias. -/
theorem dense_pair_forward (W1 W2 : Mat) (b : Vec) (n1 n2 n3 : Nat)
    (x : Nat → ℚ) (i : Nat) :
    seqForward [{ Linear.make n1 n2 false with weight := W1 },
                { Linear.make n3 n1 true with weight := W2, bias := some b }] x i =
      (W2.mul W1).mulVec x i + b.entry i := by
  have hv : Linear.forward
      { in_features := n1, out_features := n2, has_bias := false,
        weight := W1, bias := none } x = W1.mulVec x := by
    funext j
    simp [Linear.forward]
  simp [seqForward, Linear.forward, Linear.make, Mat.mulVec_mul, hv]

/-- C1: on a dense layer with weight `X` and bias `b`, with EVBMF estimating
rank `k` (`ev.S.rows`) and torch returning the SVD triple `(U, S, V)`,
`svd_decomposition_dense_layer` returns a Sequential of exactly two linear
layers; the first consumes vectors of the original input dimension
(`X.cols`), and the composition computes `x ↦ (U_k Σ_k V_kᵀ) x + b` with
`U_k, Σ_k, V_k` the rank-`k` truncations of the SVD factors. -/
theorem svd_dense_layer_truncation (L : Libs) (rng : RngState) (layer : DenseLayer)
    (ev : EvbmfOut) (sv : SvdOut) (b : Vec)
    (hev : L.evbmf layer.weight = .ok ev)
    (hsv : L.svd layer.weight = .ok sv)
    (hb : layer.bias = some b)
    (hV : sv.V.rows = layer.weight.cols) :
    ∃ V_layer U_layer,
      svd_decomposition_dense_layer L rng layer = .ok ([V_layer, U_layer], layer) ∧
      V_layer.weight.cols = layer.weight.cols ∧
      ∀ x i, seqForward [V_layer, U_layer] x i =
        (((sv.U.takeCols ev.S.rows).mul (torch_diag (sv.S.take ev.S.rows))).mul
            (sv.V.takeCols ev.S.rows).transpose).mulVec x i + b.entry i := by
  refine ⟨{ Linear.make ev.S.rows layer.weight.cols false with
              weight := (sv.V.takeCols ev.S.rows).transpose },
          { Linear.make layer.weight.rows ev.S.rows true with
              weight := (sv.U.takeCols ev.S.rows).mul (torch_diag (sv.S.take ev.S.rows)),
              bias := some b }, ?_, ?_, ?_⟩
  · simp only [svd_decomposition_dense_layer, estimate_ranks_svd, hev, hsv, hb, biasData]
    rfl
  · simpa [Linear.make, Mat.transpose, Mat.takeCols] using hV
  · exact fun x i => dense_pair_forward _ _ b _ _ _ x i

/-! ## Concrete inputs reused by the witnesses and counterexamples -/

/-- A concrete SVD triple over 2×2 identity factors. -/
def wSvd : SvdOut :=
  ⟨⟨2, 2, fun i j => if i = j then 1 else 0⟩, ⟨2, fun _ => 1⟩,
   ⟨2, 2, fun i j => if i = j then 1 else 0⟩⟩

/-- Concrete oracles on which every library routine succeeds, with the
contract shapes: `parafac` factors are `(X.shape[i], rank)`, the partial
Tucker core is `(r0, r1, kh, kw)` with factors `(T, r0)` and `(S, r1)`.
`parafac_random` writes the drawn random state into its factor entries. -/
def wLibs : Libs :=
  { parafac_svd := fun X r =>
      .ok ⟨⟨X.s0, r, fun _ _ => 1⟩, ⟨X.s1, r, fun _ _ => 1⟩,
           ⟨X.s2, r, fun _ _ => 1⟩, ⟨X.s3, r, fun _ _ => 1⟩⟩
    parafac_random := fun X r rng =>
      .ok ⟨⟨X.s0, r, fun _ _ => (rng : ℚ)⟩, ⟨X.s1, r, fun _ _ => 0⟩,
           ⟨X.s2, r, fun _ _ => 0⟩, ⟨X.s3, r, fun _ _ => 0⟩⟩
    partial_tucker := fun X _ ranks =>
      .ok (⟨ranks.getD 0 0, ranks.getD 1 0, X.s2, X.s3, fun _ _ _ _ => 1⟩,
           ⟨X.s0, ranks.getD 0 0, fun _ _ => 1⟩, ⟨X.s1, ranks.getD 1 0, fun _ _ => 1⟩)
    evbmf := fun _ => .ok evDiag2
    svd := fun _ => .ok wSvd }

/-- The bias vector of the concrete layers below. -/
def wBias : Vec := ⟨2, fun _ => 3⟩

/-- A concrete 2×2 dense layer with bias `wBias`. -/
def wDense : DenseLayer := ⟨⟨2, 2, fun i j => if i = j then 2 else 0⟩, some wBias⟩

/-- A concrete small convolutional layer: weight shape `(2, 3, 1, 1)`,
stride `(2, 2)`, padding `(1, 2)`, bias `wBias`. -/
def wConv : Conv2dLayer :=
  { weight := ⟨2, 3, 1, 1, fun _ _ _ _ => 1⟩, bias := some wBias,
    stride := (2, 2), padding := (1, 2), dilation := (1, 1), kernel_size := (1, 1) }

/-- A concrete convolutional layer whose largest weight dimension is 256, so
`cp_decomposition_conv_layer` takes the `init='random'` branch on it. -/
def wConvBig : Conv2dLayer :=
  { weight := ⟨256, 1, 1, 1, fun _ _ _ _ => 0⟩, bias := some ⟨256, fun _ => 0⟩,
    stride := (1, 1), padding := (0, 0), dilation := (1, 1), kernel_size := (1, 1) }

/-- Witness for C1 at the concrete oracles and dense layer. -/
theorem svd_dense_layer_truncation_witness :
    ∃ V_layer U_layer,
      svd_decomposition_dense_layer wLibs 0 wDense = .ok ([V_layer, U_layer], wDense) ∧
      V_layer.weight.cols = wDense.weight.cols ∧
      ∀ x i, seqForward [V_layer, U_layer] x i =
        (((wSvd.U.takeCols evDiag2.S.rows).mul (torch_diag (wSvd.S.take evDiag2.S.rows))).mul
            (wSvd.V.takeCols evDiag2.S.rows).transpose).mulVec x i + wBias.entry i :=
  svd_dense_layer_truncation wLibs 0 wDense evDiag2 wSvd wBias rfl rfl rfl rfl

/-! ## The layers the transformations build, as standalone values -/

/-- The first CP layer as returned: a 1×1 pointwise convolution built from
the `first` factor, its weight the transposed factor with two singleton
axes appended. -/
def cp_pointwise_s_to_r (layer : Conv2dLayer) (fac : CpFactors) : Conv2d :=
  { in_channels := fac.first.rows, out_channels := fac.first.cols, kernel_size := (1, 1),
    stride := layer.stride, padding := (0, 0), dilation := layer.dilation, groups := 1,
    has_bias := false,
    weight := ⟨fac.first.cols, fac.first.rows, 1, 1, fun o i _ _ => fac.first.entry i o⟩,
    bias := none }

/-- The second CP layer as returned: the grouped vertical convolution built
from the `vertical` factor. -/
def cp_depthwise_vertical (layer : Conv2dLayer) (fac : CpFactors) : Conv2d :=
  { in_channels := fac.vertical.cols, out_channels := fac.vertical.cols,
    kernel_size := (fac.vertical.rows, 1), stride := layer.stride,
    padding := (layer.padding.1, 0), dilation := layer.dilation,
    groups := fac.vertical.cols, has_bias := false,
    weight := ⟨fac.vertical.cols, 1, fac.vertical.rows, 1, fun o _ h _ => fac.vertical.entry h o⟩,
    bias := none }

/-- The third CP layer as returned: the grouped horizontal convolution built
from the `horizontal` factor. -/
def cp_depthwise_horizontal (layer : Conv2dLayer) (fac : CpFactors) : Conv2d :=
  { in_channels := fac.horizontal.cols, out_channels := fac.horizontal.cols,
    kernel_size := (1, fac.horizontal.rows), stride := layer.stride,
    padding := (0, layer.padding.1), dilation := layer.dilation,
    groups := fac.horizontal.cols, has_bias := false,
    weight := ⟨fac.horizontal.cols, 1, 1, fac.horizontal.rows, fun o _ _ w => fac.horizontal.entry w o⟩,
    bias := none }

/-- The fourth CP layer as returned: a 1×1 pointwise convolution built from
the `last` factor, carrying the original bias. -/
def cp_pointwise_r_to_t (layer : Conv2dLayer) (fac : CpFactors) (b : Vec) : Conv2d :=
  { in_channels := fac.last.cols, out_channels := fac.last.rows, kernel_size := (1, 1),
    stride := layer.stride, padding := (0, 0), dilation := layer.dilation, groups := 1,
    has_bias := true,
    weight := ⟨fac.last.rows, fac.last.cols, 1, 1, fun o i _ _ => fac.last.entry o i⟩,
    bias := some b }

/-- The first Tucker layer as returned: a 1×1 pointwise convolution built
from the mode-1 factor. -/
def tucker_first_layer (layer : Conv2dLayer) (first : Mat) : Conv2d :=
  { in_channels := first.rows, out_channels := first.cols, kernel_size := (1, 1),
    stride := (1, 1), padding := (0, 0), dilation := layer.dilation, groups := 1,
    has_bias := false,
    weight := ⟨first.cols, first.rows, 1, 1, fun o i _ _ => first.entry i o⟩,
    bias := none }

/-- The middle Tucker layer as returned: a full convolution whose weight is
the Tucker core. -/
def tucker_core_layer (layer : Conv2dLayer) (core : Tensor4) : Conv2d :=
  { in_channels := core.s1, out_channels := core.s0, kernel_size := layer.kernel_size,
    stride := layer.stride, padding := layer.padding, dilation := layer.dilation,
    groups := 1, has_bias := false, weight := core, bias := none }

/-- The final Tucker layer as returned: a 1×1 pointwise convolution built
from the mode-0 factor, carrying the original bias. -/
def tucker_last_layer (layer : Conv2dLayer) (last : Mat) (b : Vec) : Conv2d :=
  { in_channels := last.cols, out_channels := last.rows, kernel_size := (1, 1),
    stride := (1, 1), padding := (0, 0), dilation := layer.dilation, groups := 1,
    has_bias := true,
    weight := ⟨last.rows, last.cols, 1, 1, fun o i _ _ => last.entry o i⟩,
    bias := some b }

/-- The first dense layer as returned (`V_layer`): declared on `rank` inputs
but holding the weight `V_kᵀ`. -/
def svd_V_layer (layer : DenseLayer) (rank : Nat) (V : Mat) : Linear :=
  { in_features := rank, out_features := layer.weight.cols, has_bias := false,
    weight := (V.takeCols rank).transpose, bias := none }

/-- The second dense layer as returned (`U_layer`): holding the weight
`U_k Σ_k` and the original bias. -/
def svd_U_layer (layer : DenseLayer) (rank : Nat) (U : Mat) (S : Vec) (b : Vec) : Linear :=
  { in_features := layer.weight.rows, out_features := rank, has_bias := true,
    weight := (U.takeCols rank).mul (torch_diag (S.take rank)), bias := some b }

/-! ## Characterisations of the three transformations' successful results -/

/-- When `parafac` succeeds and the bias is present,
`cp_decomposition_conv_layer` returns exactly the four layers above, in
order, and hands the input layer back unchanged. -/
theorem cp_result_eq (L : Libs) (rng : RngState) (layer : Conv2dLayer) (rank : Nat)
    (fac : CpFactors) (b : Vec)
    (hfac : cp_parafac_call L rng layer.weight rank = .ok fac)
    (hb : layer.bias = some b) :
    cp_decomposition_conv_layer L rng layer rank =
      .ok ([cp_pointwise_s_to_r layer fac, cp_depthwise_vertical layer fac,
            cp_depthwise_horizontal layer fac, cp_pointwise_r_to_t layer fac b], layer) := by
  simp only [cp_decomposition_conv_layer, hfac, hb, biasData, Conv2d.make,
             cp_pointwise_s_to_r, cp_depthwise_vertical, cp_depthwise_horizontal,
             cp_pointwise_r_to_t]
  rfl

/-- When both EVBMF calls and `partial_tucker` succeed and the bias is
present, `tucker_decomposition_conv_layer` returns exactly the three layers
above, in order, and hands the input layer back unchanged. -/
theorem tucker_result_eq (L : Libs) (rng : RngState) (layer : Conv2dLayer)
    (d0 d1 : EvbmfOut) (core : Tensor4) (last first : Mat) (b : Vec)
    (hev0 : L.evbmf (layer.weight.unfold 0) = .ok d0)
    (hev1 : L.evbmf (layer.weight.unfold 1) = .ok d1)
    (htuck : L.partial_tucker layer.weight [0, 1] [d0.S.rows, d1.S.cols] =
      .ok (core, last, first))
    (hb : layer.bias = some b) :
    tucker_decomposition_conv_layer L rng layer =
      .ok ([tucker_first_layer layer first, tucker_core_layer layer core,
            tucker_last_layer layer last b], layer) := by
  have hranks : estimate_ranks_tucker L layer = .ok [d0.S.rows, d1.S.cols] := by
    simp [estimate_ranks_tucker, hev0, hev1, okBind]
  simp [tucker_decomposition_conv_layer, hranks, okBind, htuck, hb, biasData,
        Conv2d.make, Mat.transpose, tucker_first_layer, tucker_core_layer,
        tucker_last_layer]

/-- When EVBMF and the SVD succeed and the bias is present,
`svd_decomposition_dense_layer` returns exactly the two layers above, in
order, and hands the input layer back unchanged. -/
theorem svd_result_eq (L : Libs) (rng : RngState) (layer : DenseLayer)
    (ev : EvbmfOut) (sv : SvdOut) (b : Vec)
    (hev : L.evbmf layer.weight = .ok ev)
    (hsv : L.svd layer.weight = .ok sv)
    (hb : layer.bias = some b) :
    svd_decomposition_dense_layer L rng layer =
      .ok ([svd_V_layer layer ev.S.rows sv.V, svd_U_layer layer ev.S.rows sv.U sv.S b],
           layer) := by
  simp only [svd_decomposition_dense_layer, estimate_ranks_svd, hev, hsv, hb,
             biasData, Linear.make, svd_V_layer, svd_U_layer]
  rfl

/-! ## Claim C2: the CP chain's structure -/

/-- C2: when `parafac` succeeds at target rank `R` with factors of its
contract shapes — factor `i` shaped `(X.shape[i], R)` for a weight shaped
`(T, S, kh, kw)` — `cp_decomposition_conv_layer` returns a Sequential of
exactly four Conv2d layers in order: a 1×1 pointwise convolution from the
original `S` input channels down to `R`, a depthwise vertical `(kh × 1)`
convolution over `R` channels, a depthwise horizontal `(1 × kw)` convolution
over `R` channels, and a 1×1 pointwise convolution from `R` up to the
original `T` output channels. -/
theorem cp_four_conv_chain (L : Libs) (rng : RngState) (layer : Conv2dLayer)
    (rank : Nat) (fac : CpFactors) (b : Vec)
    (hfac : cp_parafac_call L rng layer.weight rank = .ok fac)
    (hb : layer.bias = some b)
    (h1 : fac.last.rows = layer.weight.s0) (h2 : fac.last.cols = rank)
    (h3 : fac.first.rows = layer.weight.s1) (h4 : fac.first.cols = rank)
    (h5 : fac.vertical.rows = layer.weight.s2) (h6 : fac.vertical.cols = rank)
    (h7 : fac.horizontal.rows = layer.weight.s3) (h8 : fac.horizontal.cols = rank) :
    cp_decomposition_conv_layer L rng layer rank =
      .ok ([cp_pointwise_s_to_r layer fac, cp_depthwise_vertical layer fac,
            cp_depthwise_horizontal layer fac, cp_pointwise_r_to_t layer fac b], layer) ∧
    ((cp_pointwise_s_to_r layer fac).in_channels = layer.weight.s1 ∧
      (cp_pointwise_s_to_r layer fac).out_channels = rank ∧
      (cp_pointwise_s_to_r layer fac).kernel_size = (1, 1) ∧
      (cp_pointwise_s_to_r layer fac).groups = 1) ∧
    ((cp_depthwise_vertical layer fac).in_channels = rank ∧
      (cp_depthwise_vertical layer fac).out_channels = rank ∧
      (cp_depthwise_vertical layer fac).kernel_size = (layer.weight.s2, 1) ∧
      (cp_depthwise_vertical layer fac).groups = rank) ∧
    ((cp_depthwise_horizontal layer fac).in_channels = rank ∧
      (cp_depthwise_horizontal layer fac).out_channels = rank ∧
      (cp_depthwise_horizontal layer fac).kernel_size = (1, layer.weight.s3) ∧
      (cp_depthwise_horizontal layer fac).groups = rank) ∧
    ((cp_pointwise_r_to_t layer fac b).in_channels = rank ∧
      (cp_pointwise_r_to_t layer fac b).out_channels = layer.weight.s0 ∧
      (cp_pointwise_r_to_t layer fac b).kernel_size = (1, 1) ∧
      (cp_pointwise_r_to_t layer fac b).groups = 1) := by
  refine ⟨cp_result_eq L rng layer rank fac b hfac hb, ?_, ?_, ?_, ?_⟩ <;>
    simp [cp_pointwise_s_to_r, cp_depthwise_vertical, cp_depthwise_horizontal,
          cp_pointwise_r_to_t, h1, h2, h3, h4, h5, h6, h7, h8]

/-- The factors `wLibs.parafac_svd` returns on `wConv`'s weight at rank 2. -/
def wFac : CpFactors :=
  ⟨⟨2, 2, fun _ _ => 1⟩, ⟨3, 2, fun _ _ => 1⟩, ⟨1, 2, fun _ _ => 1⟩, ⟨1, 2, fun _ _ => 1⟩⟩

/-- Witness for C2 at the concrete oracles and layer. -/
theorem cp_four_conv_chain_witness :
    cp_decomposition_conv_layer wLibs 0 wConv 2 =
      .ok ([cp_pointwise_s_to_r wConv wFac, cp_depthwise_vertical wConv wFac,
            cp_depthwise_horizontal wConv wFac, cp_pointwise_r_to_t wConv wFac wBias],
           wConv) :=
  (cp_four_conv_chain wLibs 0 wConv 2 wFac wBias rfl rfl rfl rfl rfl rfl rfl rfl rfl rfl).1

/-! ## Claim C3: the Tucker chain's structure -/

/-- C3: with EVBMF estimating the mode-0 rank `r0 = d0.S.rows` and mode-1
rank `r1 = d1.S.cols`, and `partial_tucker` succeeding over modes 0 and 1 at
those ranks with contract shapes — core `(r0, r1, kh, kw)`, factors
`(T, r0)` and `(S, r1)` — `tucker_decomposition_conv_layer` returns a
Sequential of exactly three Conv2d layers in order: a 1×1 pointwise
convolution from the original `S` input channels down to `r1`, a full
convolution with the original kernel size whose weight is the Tucker core,
and a 1×1 pointwise convolution from `r0` up to the original `T` output
channels. -/
theorem tucker_three_conv_chain (L : Libs) (rng : RngState) (layer : Conv2dLayer)
    (d0 d1 : EvbmfOut) (core : Tensor4) (last first : Mat) (b : Vec)
    (hev0 : L.evbmf (layer.weight.unfold 0) = .ok d0)
    (hev1 : L.evbmf (layer.weight.unfold 1) = .ok d1)
    (htuck : L.partial_tucker layer.weight [0, 1] [d0.S.rows, d1.S.cols] =
      .ok (core, last, first))
    (hb : layer.bias = some b)
    (hl1 : last.rows = layer.weight.s0) (hl2 : last.cols = d0.S.rows)
    (hf1 : first.rows = layer.weight.s1) (hf2 : first.cols = d1.S.cols) :
    tucker_decomposition_conv_layer L rng layer =
      .ok ([tucker_first_layer layer first, tucker_core_layer layer core,
            tucker_last_layer layer last b], layer) ∧
    ((tucker_first_layer layer first).in_channels = layer.weight.s1 ∧
      (tucker_first_layer layer first).out_channels = d1.S.cols ∧
      (tucker_first_layer layer first).kernel_size = (1, 1)) ∧
    ((tucker_core_layer layer core).kernel_size = layer.kernel_size ∧
      (tucker_core_layer layer core).weight = core) ∧
    ((tucker_last_layer layer last b).in_channels = d0.S.rows ∧
      (tucker_last_layer layer last b).out_channels = layer.weight.s0 ∧
      (tucker_last_layer layer last b).kernel_size = (1, 1)) := by
  refine ⟨tucker_result_eq L rng layer d0 d1 core last first b hev0 hev1 htuck hb,
          ?_, ?_, ?_⟩ <;>
    simp [tucker_first_layer, tucker_core_layer, tucker_last_layer, hl1, hl2, hf1, hf2]

/-- The Tucker core `wLibs.partial_tucker` returns on `wConv`'s weight at
ranks `[2, 2]`. -/
def wCore : Tensor4 := ⟨2, 2, 1, 1, fun _ _ _ _ => 1⟩

/-- The mode-0 Tucker factor from `wLibs` on `wConv`'s weight. -/
def wLast : Mat := ⟨2, 2, fun _ _ => 1⟩

/-- The mode-1 Tucker factor from `wLibs` on `wConv`'s weight. -/
def wFirst : Mat := ⟨3, 2, fun _ _ => 1⟩

/-- Witness for C3 at the concrete oracles and layer. -/
theorem tucker_three_conv_chain_witness :
    tucker_decomposition_conv_layer wLibs 0 wConv =
      .ok ([tucker_first_layer wConv wFirst, tucker_core_layer wConv wCore,
            tucker_last_layer wConv wLast wBias], wConv) :=
  (tucker_three_conv_chain wLibs 0 wConv evDiag2 evDiag2 wCore wLast wFirst wBias
    rfl rfl rfl rfl rfl rfl rfl rfl).1

/-! ## Claim C9: bias placement in the rebuilt chains -/

/-- C9: in every Sequential any of the three transformations returns, each
layer before the last is constructed with bias disabled and carries no bias,
while the final layer is constructed with bias enabled and carries exactly
the original layer's bias data. -/
theorem bias_only_in_final_layer (L : Libs) (rng : RngState) (clayer : Conv2dLayer)
    (dlayer : DenseLayer) (rank : Nat) (fac : CpFactors) (d0 d1 : EvbmfOut)
    (core : Tensor4) (last first : Mat) (ev : EvbmfOut) (sv : SvdOut) (b bd : Vec)
    (hfac : cp_parafac_call L rng clayer.weight rank = .ok fac)
    (hbc : clayer.bias = some b)
    (hev0 : L.evbmf (clayer.weight.unfold 0) = .ok d0)
    (hev1 : L.evbmf (clayer.weight.unfold 1) = .ok d1)
    (htuck : L.partial_tucker clayer.weight [0, 1] [d0.S.rows, d1.S.cols] =
      .ok (core, last, first))
    (hev : L.evbmf dlayer.weight = .ok ev)
    (hsv : L.svd dlayer.weight = .ok sv)
    (hbd : dlayer.bias = some bd) :
    (cp_decomposition_conv_layer L rng clayer rank =
        .ok ([cp_pointwise_s_to_r clayer fac, cp_depthwise_vertical clayer fac,
              cp_depthwise_horizontal clayer fac, cp_pointwise_r_to_t clayer fac b],
             clayer) ∧
      (cp_pointwise_s_to_r clayer fac).has_bias = false ∧
      (cp_pointwise_s_to_r clayer fac).bias = none ∧
      (cp_depthwise_vertical clayer fac).has_bias = false ∧
      (cp_depthwise_vertical clayer fac).bias = none ∧
      (cp_depthwise_horizontal clayer fac).has_bias = false ∧
      (cp_depthwise_horizontal clayer fac).bias = none ∧
      (cp_pointwise_r_to_t clayer fac b).has_bias = true ∧
      (cp_pointwise_r_to_t clayer fac b).bias = some b) ∧
    (tucker_decomposition_conv_layer L rng clayer =
        .ok ([tucker_first_layer clayer first, tucker_core_layer clayer core,
              tucker_last_layer clayer last b], clayer) ∧
      (tucker_first_layer clayer first).has_bias = false ∧
      (tucker_first_layer clayer first).bias = none ∧
      (tucker_core_layer clayer core).has_bias = false ∧
      (tucker_core_layer clayer core).bias = none ∧
      (tucker_last_layer clayer last b).has_bias = true ∧
      (tucker_last_layer clayer last b).bias = some b) ∧
    (svd_decomposition_dense_layer L rng dlayer =
        .ok ([svd_V_layer dlayer ev.S.rows sv.V, svd_U_layer dlayer ev.S.rows sv.U sv.S bd],
             dlayer) ∧
      (svd_V_layer dlayer ev.S.rows sv.V).has_bias = false ∧
      (svd_V_layer dlayer ev.S.rows sv.V).bias = none ∧
      (svd_U_layer dlayer ev.S.rows sv.U sv.S bd).has_bias = true ∧
      (svd_U_layer dlayer ev.S.rows sv.U sv.S bd).bias = some bd) := by
  refine ⟨⟨cp_result_eq L rng clayer rank fac b hfac hbc, ?_⟩,
          ⟨tucker_result_eq L rng clayer d0 d1 core last first b hev0 hev1 htuck hbc, ?_⟩,
          ⟨svd_result_eq L rng dlayer ev sv bd hev hsv hbd, ?_⟩⟩ <;>
    simp [cp_pointwise_s_to_r, cp_depthwise_vertical, cp_depthwise_horizontal,
          cp_pointwise_r_to_t, tucker_first_layer, tucker_core_layer, tucker_last_layer,
          svd_V_layer, svd_U_layer]

/-- Witness for C9 at the concrete oracles and layers. -/
theorem bias_only_in_final_layer_witness :
    (cp_pointwise_r_to_t wConv wFac wBias).bias = some wBias ∧
    (tucker_last_layer wConv wLast wBias).bias = some wBias ∧
    (svd_U_layer wDense evDiag2.S.rows wSvd.U wSvd.S wBias).bias = some wBias := by
  have h := bias_only_in_final_layer wLibs 0 wConv wDense 2 wFac evDiag2 evDiag2
    wCore wLast wFirst evDiag2 wSvd wBias wBias rfl rfl rfl rfl rfl rfl rfl rfl
  exact ⟨h.1.2.2.2.2.2.2.2.2, h.2.1.2.2.2.2.2.2, h.2.2.2.2.2.2⟩

/-! ## Claim C10: stride and padding choices of the two conv rebuilds -/

/-- C10: `cp_decomposition_conv_layer` constructs all four replacement
convolutions — both pointwise layers included — with the original layer's
stride and gives both depthwise layers a padding taken from the original
layer's first padding component, whereas
`tucker_decomposition_conv_layer` fixes stride `(1, 1)` on its two pointwise
layers and applies the original stride only in the core convolution. -/
theorem stride_and_padding_choices (L : Libs) (rng : RngState) (clayer : Conv2dLayer)
    (rank : Nat) (fac : CpFactors) (d0 d1 : EvbmfOut)
    (core : Tensor4) (last first : Mat) (b : Vec)
    (hfac : cp_parafac_call L rng clayer.weight rank = .ok fac)
    (hbc : clayer.bias = some b)
    (hev0 : L.evbmf (clayer.weight.unfold 0) = .ok d0)
    (hev1 : L.evbmf (clayer.weight.unfold 1) = .ok d1)
    (htuck : L.partial_tucker clayer.weight [0, 1] [d0.S.rows, d1.S.cols] =
      .ok (core, last, first)) :
    (cp_decomposition_conv_layer L rng clayer rank =
        .ok ([cp_pointwise_s_to_r clayer fac, cp_depthwise_vertical clayer fac,
              cp_depthwise_horizontal clayer fac, cp_pointwise_r_to_t clayer fac b],
             clayer) ∧
      (cp_pointwise_s_to_r clayer fac).stride = clayer.stride ∧
      (cp_depthwise_vertical clayer fac).stride = clayer.stride ∧
      (cp_depthwise_horizontal clayer fac).stride = clayer.stride ∧
      (cp_pointwise_r_to_t clayer fac b).stride = clayer.stride ∧
      (cp_depthwise_vertical clayer fac).padding = (clayer.padding.1, 0) ∧
      (cp_depthwise_horizontal clayer fac).padding = (0, clayer.padding.1)) ∧
    (tucker_decomposition_conv_layer L rng clayer =
        .ok ([tucker_first_layer clayer first, tucker_core_layer clayer core,
              tucker_last_layer clayer last b], clayer) ∧
      (tucker_first_layer clayer first).stride = (1, 1) ∧
      (tucker_last_layer clayer last b).stride = (1, 1) ∧
      (tucker_core_layer clayer core).stride = clayer.stride ∧
      (tucker_core_layer clayer core).padding = clayer.padding) := by
  refine ⟨⟨cp_result_eq L rng clayer rank fac b hfac hbc, ?_⟩,
          ⟨tucker_result_eq L rng clayer d0 d1 core last first b hev0 hev1 htuck hbc, ?_⟩⟩ <;>
    simp [cp_pointwise_s_to_r, cp_depthwise_vertical, cp_depthwise_horizontal,
          cp_pointwise_r_to_t, tucker_first_layer, tucker_core_layer, tucker_last_layer]

/-- Witness for C10 at the concrete oracles and layer (whose stride `(2, 2)`
and padding `(1, 2)` differ from the fixed values, so the conclusions are
not vacuous there). -/
theorem stride_and_padding_choices_witness :
    (cp_depthwise_vertical wConv wFac).padding = (1, 0) ∧
    (cp_depthwise_vertical wConv wFac).stride = (2, 2) ∧
    (tucker_first_layer wConv wFirst).stride = (1, 1) ∧
    (tucker_core_layer wConv wCore).stride = (2, 2) := by
  have h := stride_and_padding_choices wLibs 0 wConv 2 wFac evDiag2 evDiag2
    wCore wLast wFirst wBias rfl rfl rfl rfl rfl
  exact ⟨h.1.2.2.2.2.2.1, h.1.2.2.1, h.2.2.1, h.2.2.2.2.1⟩

/-! ## Claim C5: determinism and the random-initialisation branch -/

/-- Binding a failed step of a Python computation propagates the exception
past the rest of the function. -/
theorem errBind {α β : Type} (e : Err) (f : α → Except Err β) :
    (Except.error e : Except Err α) >>= f = Except.error e := rfl

/-- C5 counterexample: on a layer whose largest weight dimension reaches
256, `cp_decomposition_conv_layer` takes the `init='random'` branch, and two
calls that are equal in every input except the global random state return
different Sequentials — the fourth layer's weight holds the drawn values. -/
theorem cp_output_depends_on_rng :
    cp_decomposition_conv_layer wLibs 0 wConvBig 1 ≠
      cp_decomposition_conv_layer wLibs 1 wConvBig 1 := by
  intro h
  have h2 := congrArg
    (fun r => match r with
      | Except.ok (ls, _) => ((ls.getD 3 default).weight.entry 0 0 0 0)
      | Except.error _ => 0) h
  simp [cp_decomposition_conv_layer, cp_parafac_call, wLibs, wConvBig, biasData,
        okBind, Conv2d.make, Tensor4.maxShape, cp_pointwise_s_to_r,
        cp_depthwise_vertical, cp_depthwise_horizontal, cp_pointwise_r_to_t] at h2

/-- C5 (amended): the transformations are deterministic — equal inputs give
equal outputs independently of the global random state — for
`tucker_decomposition_conv_layer` and `svd_decomposition_dense_layer`
always, and for `cp_decomposition_conv_layer` whenever the largest weight
dimension stays below 256; at 256 and above the CP function uses random
initialisation and its output may depend on the random state. -/
theorem deterministic_except_random_init (L : Libs) (rng1 rng2 : RngState)
    (clayer : Conv2dLayer) (dlayer : DenseLayer) (rank : Nat)
    (hsize : clayer.weight.maxShape < 256) :
    cp_decomposition_conv_layer L rng1 clayer rank
      = cp_decomposition_conv_layer L rng2 clayer rank ∧
    tucker_decomposition_conv_layer L rng1 clayer
      = tucker_decomposition_conv_layer L rng2 clayer ∧
    svd_decomposition_dense_layer L rng1 dlayer
      = svd_decomposition_dense_layer L rng2 dlayer := by
  refine ⟨?_, rfl, rfl⟩
  have h : cp_parafac_call L rng1 clayer.weight rank
      = cp_parafac_call L rng2 clayer.weight rank := by
    simp [cp_parafac_call, Nat.not_le.mpr hsize]
  simp [cp_decomposition_conv_layer, h]

/-- Witness for C5's amended statement at the concrete oracles and the small
layer. -/
theorem deterministic_except_random_init_witness :
    cp_decomposition_conv_layer wLibs 0 wConv 2
      = cp_decomposition_conv_layer wLibs 1 wConv 2 ∧
    tucker_decomposition_conv_layer wLibs 0 wConv
      = tucker_decomposition_conv_layer wLibs 1 wConv ∧
    svd_decomposition_dense_layer wLibs 0 wDense
      = svd_decomposition_dense_layer wLibs 1 wDense :=
  deterministic_except_random_init wLibs 0 1 wConv wDense 2 (by decide)

/-! ## Claim C6: the input layer is handed back unchanged -/

/-- C6: whenever one of the three transformations returns normally, the
input layer's state at return — weight tensor and bias included — is exactly
the state it was called with; no statement of the source writes to it. -/
theorem input_layer_unchanged (L : Libs) (rng : RngState) (clayer : Conv2dLayer)
    (dlayer : DenseLayer) (rank : Nat) :
    (∀ out st, cp_decomposition_conv_layer L rng clayer rank = .ok (out, st) →
      st = clayer) ∧
    (∀ out st, tucker_decomposition_conv_layer L rng clayer = .ok (out, st) →
      st = clayer) ∧
    (∀ out st, svd_decomposition_dense_layer L rng dlayer = .ok (out, st) →
      st = dlayer) := by
  refine ⟨?_, ?_, ?_⟩
  · intro out st h
    cases hfac : cp_parafac_call L rng clayer.weight rank with
    | error e => simp [cp_decomposition_conv_layer, hfac, errBind] at h
    | ok fac =>
      cases hbias : clayer.bias with
      | none =>
        simp [cp_decomposition_conv_layer, hfac, hbias, okBind, errBind, biasData] at h
      | some b =>
        rw [cp_result_eq L rng clayer rank fac b hfac hbias] at h
        simp only [Except.ok.injEq, Prod.mk.injEq] at h
        exact h.2.symm
  · intro out st h
    cases hranks : estimate_ranks_tucker L clayer with
    | error e => simp [tucker_decomposition_conv_layer, hranks, errBind] at h
    | ok ranks =>
      cases htuck : L.partial_tucker clayer.weight [0, 1] ranks with
      | error e =>
        simp [tucker_decomposition_conv_layer, hranks, htuck, okBind, errBind] at h
      | ok t =>
        cases hbias : clayer.bias with
        | none =>
          simp [tucker_decomposition_conv_layer, hranks, htuck, hbias, okBind,
                errBind, biasData] at h
        | some b =>
          simp [tucker_decomposition_conv_layer, hranks, htuck, hbias, okBind,
                biasData] at h
          exact h.2.symm
  · intro out st h
    cases hrank : estimate_ranks_svd L dlayer with
    | error e => simp [svd_decomposition_dense_layer, hrank, errBind] at h
    | ok rank2 =>
      cases hsv : L.svd dlayer.weight with
      | error e =>
        simp [svd_decomposition_dense_layer, hrank, hsv, okBind, errBind] at h
      | ok sv =>
        cases hbias : dlayer.bias with
        | none =>
          simp [svd_decomposition_dense_layer, hrank, hsv, hbias, okBind,
                errBind, biasData] at h
        | some b =>
          simp [svd_decomposition_dense_layer, hrank, hsv, hbias, okBind,
                biasData] at h
          exact h.2.symm

/-- Witness for C6: at the concrete oracles and layers, each transformation
returns, and it hands back exactly the layer it was given. -/
theorem input_layer_unchanged_witness :
    ∃ out1 out2 out3,
      cp_decomposition_conv_layer wLibs 0 wConv 2 = .ok (out1, wConv) ∧
      tucker_decomposition_conv_layer wLibs 0 wConv = .ok (out2, wConv) ∧
      svd_decomposition_dense_layer wLibs 0 wDense = .ok (out3, wDense) := by
  obtain ⟨o1, s1, h1⟩ : ∃ o s, cp_decomposition_conv_layer wLibs 0 wConv 2 = .ok (o, s) :=
    ⟨_, _, rfl⟩
  obtain ⟨o2, s2, h2⟩ : ∃ o s, tucker_decomposition_conv_layer wLibs 0 wConv = .ok (o, s) :=
    ⟨_, _, rfl⟩
  obtain ⟨o3, s3, h3⟩ : ∃ o s, svd_decomposition_dense_layer wLibs 0 wDense = .ok (o, s) :=
    ⟨_, _, rfl⟩
  have h := input_layer_unchanged wLibs 0 wConv wDense 2
  exact ⟨o1, o2, o3, (h.1 o1 s1 h1) ▸ h1, (h.2.1 o2 s2 h2) ▸ h2, (h.2.2 o3 s3 h3) ▸ h3⟩

/-! ## Claim C7: behaviour on a missing bias -/

/-- The small convolutional layer with its bias absent. -/
def wConvNoBias : Conv2dLayer :=
  { weight := ⟨2, 3, 1, 1, fun _ _ _ _ => 1⟩, bias := none,
    stride := (2, 2), padding := (1, 2), dilation := (1, 1), kernel_size := (1, 1) }

/-- The dense layer with its bias absent. -/
def wDenseNoBias : DenseLayer := ⟨⟨2, 2, fun i j => if i = j then 2 else 0⟩, none⟩

/-- C7 counterexample: on layers whose bias is `None`, with every library
routine succeeding, each of the three transformations raises an
`AttributeError` at the `layer.bias.data` read instead of returning a
replacement Sequential. -/
theorem missing_bias_counterexample :
    cp_decomposition_conv_layer wLibs 0 wConvNoBias 2 = .error .attributeError ∧
    tucker_decomposition_conv_layer wLibs 0 wConvNoBias = .error .attributeError ∧
    svd_decomposition_dense_layer wLibs 0 wDenseNoBias = .error .attributeError :=
  ⟨rfl, rfl, rfl⟩

/-- C7 (amended): the bias is required, not optional: on every input layer
whose bias is absent, each of the three transformations fails with an
exception — it never returns a replacement Sequential. -/
theorem missing_bias_raises (L : Libs) (rng : RngState) (clayer : Conv2dLayer)
    (dlayer : DenseLayer) (rank : Nat)
    (hbc : clayer.bias = none) (hbd : dlayer.bias = none) :
    (∃ e, cp_decomposition_conv_layer L rng clayer rank = .error e) ∧
    (∃ e, tucker_decomposition_conv_layer L rng clayer = .error e) ∧
    (∃ e, svd_decomposition_dense_layer L rng dlayer = .error e) := by
  refine ⟨?_, ?_, ?_⟩
  · cases hfac : cp_parafac_call L rng clayer.weight rank with
    | error e => exact ⟨e, by simp [cp_decomposition_conv_layer, hfac, errBind]⟩
    | ok fac =>
      exact ⟨.attributeError,
        by simp [cp_decomposition_conv_layer, hfac, okBind, hbc, biasData, errBind]⟩
  · cases hranks : estimate_ranks_tucker L clayer with
    | error e => exact ⟨e, by simp [tucker_decomposition_conv_layer, hranks, errBind]⟩
    | ok ranks =>
      cases htuck : L.partial_tucker clayer.weight [0, 1] ranks with
      | error e =>
        exact ⟨e, by simp [tucker_decomposition_conv_layer, hranks, htuck, okBind, errBind]⟩
      | ok t =>
        exact ⟨.attributeError,
          by simp [tucker_decomposition_conv_layer, hranks, htuck, okBind, hbc,
                   biasData, errBind]⟩
  · cases hrank : estimate_ranks_svd L dlayer with
    | error e => exact ⟨e, by simp [svd_decomposition_dense_layer, hrank, errBind]⟩
    | ok rank2 =>
      cases hsv : L.svd dlayer.weight with
      | error e =>
        exact ⟨e, by simp [svd_decomposition_dense_layer, hrank, hsv, okBind, errBind]⟩
      | ok sv =>
        exact ⟨.attributeError,
          by simp [svd_decomposition_dense_layer, hrank, hsv, okBind, hbd,
                   biasData, errBind]⟩

/-- Witness for C7's amended statement at the concrete bias-less layers. -/
theorem missing_bias_raises_witness :
    (∃ e, cp_decomposition_conv_layer wLibs 0 wConvNoBias 2 = .error e) ∧
    (∃ e, tucker_decomposition_conv_layer wLibs 0 wConvNoBias = .error e) ∧
    (∃ e, svd_decomposition_dense_layer wLibs 0 wDenseNoBias = .error e) :=
  missing_bias_raises wLibs 0 wConvNoBias wDenseNoBias 2 rfl rfl

/-! ## Claim C8: library failures propagate uncaught -/

/-- C8: when an underlying library call fails, each transformation
propagates that very exception to its caller — nothing is caught, retried or
transformed, and no replacement Sequential is produced: the `parafac` call
for CP; either EVBMF call or the `partial_tucker` call for Tucker; the EVBMF
call or the torch SVD call for the dense rebuild. -/
theorem library_failures_propagate (L : Libs) (rng : RngState) (clayer : Conv2dLayer)
    (dlayer : DenseLayer) (rank : Nat) (e : Err) :
    (cp_parafac_call L rng clayer.weight rank = .error e →
      cp_decomposition_conv_layer L rng clayer rank = .error e) ∧
    (L.evbmf (clayer.weight.unfold 0) = .error e →
      tucker_decomposition_conv_layer L rng clayer = .error e) ∧
    (∀ d0, L.evbmf (clayer.weight.unfold 0) = .ok d0 →
      L.evbmf (clayer.weight.unfold 1) = .error e →
      tucker_decomposition_conv_layer L rng clayer = .error e) ∧
    (∀ d0 d1, L.evbmf (clayer.weight.unfold 0) = .ok d0 →
      L.evbmf (clayer.weight.unfold 1) = .ok d1 →
      L.partial_tucker clayer.weight [0, 1] [d0.S.rows, d1.S.cols] = .error e →
      tucker_decomposition_conv_layer L rng clayer = .error e) ∧
    (L.evbmf dlayer.weight = .error e →
      svd_decomposition_dense_layer L rng dlayer = .error e) ∧
    (∀ ev, L.evbmf dlayer.weight = .ok ev → L.svd dlayer.weight = .error e →
      svd_decomposition_dense_layer L rng dlayer = .error e) := by
  refine ⟨?_, ?_, ?_, ?_, ?_, ?_⟩
  · intro hfac
    simp [cp_decomposition_conv_layer, hfac, errBind]
  · intro hev0
    simp [tucker_decomposition_conv_layer, estimate_ranks_tucker, hev0, errBind]
  · intro d0 hev0 hev1
    simp [tucker_decomposition_conv_layer, estimate_ranks_tucker, hev0, hev1,
          okBind, errBind]
  · intro d0 d1 hev0 hev1 htuck
    have hranks : estimate_ranks_tucker L clayer = .ok [d0.S.rows, d1.S.cols] := by
      simp [estimate_ranks_tucker, hev0, hev1, okBind]
    simp [tucker_decomposition_conv_layer, hranks, okBind, htuck, errBind]
  · intro hev
    simp [svd_decomposition_dense_layer, estimate_ranks_svd, hev, errBind]
  · intro ev hev hsv
    simp [svd_decomposition_dense_layer, estimate_ranks_svd, hev, hsv, okBind, errBind]

/-- Oracles that fail only inside EVBMF. -/
def exLibs : Libs := { wLibs with evbmf := fun _ => .error (.lib 5) }

/-- Oracles that fail only inside `partial_tucker`. -/
def txLibs : Libs := { wLibs with partial_tucker := fun _ _ _ => .error (.lib 3) }

/-- Oracles that fail only inside the torch SVD. -/
def sxLibs : Libs := { wLibs with svd := fun _ => .error (.lib 9) }

/-- Oracles that fail only inside `parafac`. -/
def pxLibs : Libs :=
  { wLibs with parafac_svd := fun _ _ => .error (.lib 2),
               parafac_random := fun _ _ _ => .error (.lib 2) }

/-- Witness for C8: each kind of library failure, demonstrated at concrete
oracles and layers, reaches the caller unchanged. -/
theorem library_failures_propagate_witness :
    cp_decomposition_conv_layer pxLibs 0 wConv 2 = .error (.lib 2) ∧
    tucker_decomposition_conv_layer exLibs 0 wConv = .error (.lib 5) ∧
    tucker_decomposition_conv_layer rxLibs 0
      { weight := ⟨2, 3, 1, 1, fun _ _ _ _ => 1⟩, bias := some wBias, stride := (2, 2),
        padding := (1, 2), dilation := (1, 1), kernel_size := (1, 1) } = .error (.lib 7) ∧
    tucker_decomposition_conv_layer txLibs 0 wConv = .error (.lib 3) ∧
    svd_decomposition_dense_layer exLibs 0 wDense = .error (.lib 5) ∧
    svd_decomposition_dense_layer sxLibs 0 wDense = .error (.lib 9) :=
  ⟨(library_failures_propagate pxLibs 0 wConv wDense 2 (.lib 2)).1 rfl,
   (library_failures_propagate exLibs 0 wConv wDense 2 (.lib 5)).2.1 rfl,
   (library_failures_propagate rxLibs 0
      { weight := ⟨2, 3, 1, 1, fun _ _ _ _ => 1⟩, bias := some wBias, stride := (2, 2),
        padding := (1, 2), dilation := (1, 1), kernel_size := (1, 1) }
      wDense 2 (.lib 7)).2.2.1 evDiag2 rfl rfl,
   (library_failures_propagate txLibs 0 wConv wDense 2 (.lib 3)).2.2.2.1 evDiag2 evDiag2
     rfl rfl rfl,
   (library_failures_propagate exLibs 0 wConv wDense 2 (.lib 5)).2.2.2.2.1 rfl,
   (library_failures_propagate sxLibs 0 wConv wDense 2 (.lib 9)).2.2.2.2.2 evDiag2
     rfl rfl⟩
